import Mathlib

/-!
Verification development for the Local Food Wastage Management System
(single-file Streamlit app `app.py`).

The app is a thin UI layer over four relational tables (providers,
receivers, food_listings, claims), backed either by PostgreSQL or by a
local SQLite file.  We shallowly embed the data model, the
connection/query gateway, the sample-data seeder and the page
controllers as pure Lean functions over an explicit database state, and
prove the spec's testable properties about them.

Modelling conventions:
- a table is a list of row structures; `DBState` packs the four tables;
- SQL dates are modelled as integers (days), timestamps as strings;
- pandas data frames of scalar queries are `Option (List (List Rat))`
  (list of rows, each row a list of columns; `none` models a missing
  frame);
- Python floats are modelled exactly by rationals;
- a database write that can raise is `Except String DBState`.
-/

/-- A row of the `providers` table (`create_tables`). -/
structure Provider where
  provider_id : Nat
  name : String
  type : String
  address : String
  city : String
  contact : String
deriving Repr, DecidableEq

/-- A row of the `receivers` table (`create_tables`). -/
structure Receiver where
  receiver_id : Nat
  name : String
  type : String
  city : String
  contact : String
deriving Repr, DecidableEq

/-- A row of the `food_listings` table (`create_tables`).  Nullable
columns are `Option`; `expiry_date` is a day number. -/
structure FoodListing where
  food_id : Nat
  food_name : String
  quantity : Int
  expiry_date : Int
  provider_id : Option Nat
  provider_type : Option String
  location : Option String
  food_type : Option String
  meal_type : Option String
deriving Repr, DecidableEq

/-- A row of the `claims` table (`create_tables`). -/
structure Claim where
  claim_id : Nat
  food_id : Nat
  receiver_id : Nat
  status : String
  timestamp : String
deriving Repr, DecidableEq

/-- The whole database state: the four tables created by
`DB.create_tables`. -/
structure DBState where
  providers : List Provider
  receivers : List Receiver
  food_listings : List FoodListing
  claims : List Claim
deriving Repr, DecidableEq

/-- The empty database (all four tables empty), as left by
`create_tables` on a fresh file. -/
def emptyDB : DBState := ⟨[], [], [], []⟩

/-! ## Connection/Query Gateway (`class DB`) -/

/-- `DB.__init__`: decide the backend.  `secretsOk` models whether
`st.secrets` is available (no exception); `secretsHasDbHost` models
`"db_host" in st.secrets`; `envDbHost`/`envDbName` model
`os.getenv("DB_HOST")` / `os.getenv("DB_NAME")` (`none` = unset).
Python truthiness of `os.getenv`: `None` and `""` are falsy. -/
def envTruthy : Option String → Bool
  | none => false
  | some s => s ≠ ""

/-- The backend chosen by `DB.__init__` (stored once in `self.db_type`). -/
def db_init (secretsOk secretsHasDbHost : Bool)
    (envDbHost envDbName : Option String) : String :=
  if secretsOk then
    if secretsHasDbHost then "postgres" else "sqlite"
  else
    if envTruthy envDbHost || envTruthy envDbName then "postgres" else "sqlite"

/-- `os.path.join a b` for a relative second component: appends a
separator unless `a` already ends with one. -/
def os_path_join (a b : String) : String :=
  if a.endsWith "/" then a ++ b else a ++ "/" ++ b

/-- `DB.get_conn`: the file path opened when the backend is sqlite
(`os.path.join(os.getcwd(), "local_food.db")`); `none` when the
backend is postgres (a network connection, not a file). -/
def get_conn_path (db_type cwd : String) : Option String :=
  if db_type = "sqlite" then some (os_path_join cwd "local_food.db") else none

/-- One left-to-right pass of Python `str.replace("%s", "?")` over the
character list: each non-overlapping occurrence of `%s` becomes `?`. -/
def replacePSAux : List Char → List Char
  | [] => []
  | [c] => [c]
  | c :: d :: t =>
    if c = '%' ∧ d = 's' then '?' :: replacePSAux t
    else c :: replacePSAux (d :: t)

/-- `sql.replace("%s", "?")` as used by `DB._adapt_sql`. -/
def replacePS (s : String) : String := String.mk (replacePSAux s.data)

/-- `DB._adapt_sql`: convert `%s` placeholders to `?` for sqlite;
return the SQL unchanged for postgres. -/
def _adapt_sql (db_type : String) (sql : String) : String :=
  if db_type = "sqlite" then replacePS sql else sql

/-- The SQL text actually executed by `DB.run_query` (it calls
`_adapt_sql` before `pd.read_sql_query`). -/
def run_query_sql (db_type : String) (sql : String) : String :=
  _adapt_sql db_type sql

/-- The SQL text actually executed by `DB.run_execute` (it calls
`_adapt_sql` before `cur.execute`). -/
def run_execute_sql (db_type : String) (sql : String) : String :=
  _adapt_sql db_type sql

/-- Does the character list still contain an occurrence of `%s`? -/
def hasPSAux : List Char → Bool
  | [] => false
  | [_] => false
  | c :: d :: t => (decide (c = '%' ∧ d = 's')) || hasPSAux (d :: t)

/-- Does the string still contain an occurrence of `%s`? -/
def hasPS (s : String) : Bool := hasPSAux s.data

/-! ## UI helper `safe_scalar` -/

/-- `safe_scalar(df)`: 0 when the frame is missing (`None`) or empty
(no rows); otherwise `df.iloc[0, 0]`, the first column of the first
row (SQL result rows always carry at least one column). -/
def safe_scalar (df : Option (List (List ℚ))) : ℚ :=
  match df with
  | none => 0
  | some [] => 0
  | some (row :: _) => row.headD 0

/-! ## Schema constraint: `food_listings.quantity > 0` -/

/-- An `INSERT INTO food_listings` checked against the schema-level
`CHECK (quantity > 0)`: the row is appended when the check passes,
otherwise the statement raises and the state is untouched. -/
def insertFoodListing (s : DBState) (f : FoodListing) : Except String DBState :=
  if f.quantity > 0 then
    Except.ok { s with food_listings := s.food_listings ++ [f] }
  else
    Except.error "CHECK constraint failed: quantity > 0"

/-- The `food_listings` table after attempting the insert (a failed
statement leaves the table as it was). -/
def foodListingsAfterInsert (s : DBState) (f : FoodListing) : List FoodListing :=
  match insertFoodListing s f with
  | Except.ok s2 => s2.food_listings
  | Except.error _ => s.food_listings

/-! ## Sample Data Seeder (`DB.insert_sample_data`) -/

/-- Next auto-increment id for a table given the ids in use
(`max + 1`, starting at 1 on an empty table). -/
def nextId (ids : List Nat) : Nat := ids.foldr max 0 + 1

/-- `SELECT COUNT(*) AS cnt FROM providers` as a one-row, one-column
data frame. -/
def providersCountQuery (s : DBState) : List (List ℚ) :=
  [[(s.providers.length : ℚ)]]

/-- `DB.insert_sample_data`, parameterized by the current date
(`date.today()`, a day number) and the two `datetime.now()` strings
used for the two claim timestamps.  Checks the providers row count; if
nonzero returns `"Sample data already present."` without writing;
otherwise inserts two providers, two receivers, two listings (expiry
`today+3` and `today+1`) and two claims (one Completed, one Pending)
and returns `"Sample data inserted."`. -/
def insert_sample_data (today : Int) (now1 now2 : String) (s : DBState) :
    DBState × String :=
  if (safe_scalar (some (providersCountQuery s)) : ℚ) > 0 then
    (s, "Sample data already present.")
  else
    let p1 : Provider := ⟨nextId (s.providers.map (·.provider_id)),
      "FreshBites Restaurant", "Restaurant", "123 Market Street", "Mumbai",
      "+91-9876543210"⟩
    let providers1 := s.providers ++ [p1]
    let p2 : Provider := ⟨nextId (providers1.map (·.provider_id)),
      "Happy Meals", "Caterer", "45 Food Plaza", "Delhi", "+91-9876501234"⟩
    let providers2 := providers1 ++ [p2]
    let r1 : Receiver := ⟨nextId (s.receivers.map (·.receiver_id)),
      "Helping Hands NGO", "NGO", "Mumbai", "9988776655"⟩
    let receivers1 := s.receivers ++ [r1]
    let r2 : Receiver := ⟨nextId (receivers1.map (·.receiver_id)),
      "Care Kitchen", "Community Kitchen", "Delhi", "8877665544"⟩
    let receivers2 := receivers1 ++ [r2]
    let f1 : FoodListing := ⟨nextId (s.food_listings.map (·.food_id)),
      "Vegetable Curry", 20, today + 3, some 1, some "Restaurant",
      some "Mumbai", some "Vegetarian", some "Lunch"⟩
    let listings1 := s.food_listings ++ [f1]
    let f2 : FoodListing := ⟨nextId (listings1.map (·.food_id)),
      "Chicken Biryani", 15, today + 1, some 2, some "Caterer",
      some "Delhi", some "Non-Vegetarian", some "Dinner"⟩
    let listings2 := listings1 ++ [f2]
    let c1 : Claim := ⟨nextId (s.claims.map (·.claim_id)), 1, 1,
      "Completed", now1⟩
    let claims1 := s.claims ++ [c1]
    let c2 : Claim := ⟨nextId (claims1.map (·.claim_id)), 2, 2,
      "Pending", now2⟩
    let claims2 := claims1 ++ [c2]
    ({ providers := providers2, receivers := receivers2,
       food_listings := listings2, claims := claims2 },
     "Sample data inserted.")

/-! ## Listings page: query construction and ordering -/

/-- The WHERE clause built by the Listings page: the base condition
`expiry_date >= CURRENT_DATE`, an `AND location = %s` conjunct when the
selected city is not `"All"`, and an `AND food_type = %s` conjunct when
the selected food type is not `"All"`.  SQL equality against a NULL
column is not satisfied, hence the `Option` equality. -/
def listingsWhere (selected_loc selected_ft : String) (today : Int)
    (r : FoodListing) : Bool :=
  decide (today ≤ r.expiry_date)
    && (if selected_loc = "All" then true else r.location == some selected_loc)
    && (if selected_ft = "All" then true else r.food_type == some selected_ft)

/-- Ordered insert for `ORDER BY expiry_date ASC`. -/
def insertByExpiry (x : FoodListing) : List FoodListing → List FoodListing
  | [] => [x]
  | y :: ys =>
    if x.expiry_date ≤ y.expiry_date then x :: y :: ys
    else y :: insertByExpiry x ys

/-- `ORDER BY expiry_date ASC` as a sort of the row list. -/
def sortByExpiry : List FoodListing → List FoodListing
  | [] => []
  | x :: xs => insertByExpiry x (sortByExpiry xs)

/-- The Listings page query: filter `food_listings` by the built WHERE
clause and order by ascending expiry date. -/
def listingsPageQuery (selected_loc selected_ft : String) (today : Int)
    (s : DBState) : List FoodListing :=
  sortByExpiry (s.food_listings.filter (listingsWhere selected_loc selected_ft today))

/-! ## Claims page: status update and read -/

/-- `UPDATE claims SET status = %s WHERE claim_id = %s`: rewrite the
status of every row whose `claim_id` matches (zero rows matched is a
successful statement touching nothing). -/
def updateClaimStatus (cid : Nat) (new_status : String) (s : DBState) : DBState :=
  { s with claims :=
      s.claims.map (fun c => if c.claim_id = cid then { c with status := new_status } else c) }

/-- Reading the claims rows with a given `claim_id` (SELECT ... FROM
claims WHERE claim_id = ...). -/
def readClaimById (cid : Nat) (s : DBState) : List Claim :=
  s.claims.filter (fun c => c.claim_id == cid)

/-- The Claims page update form body: runs the UPDATE and reports
`"Claim status updated."` (the except-branch is not taken when the
statement succeeds, which an UPDATE matching zero rows also does). -/
def claims_update_form (cid : Nat) (new_status : String) (s : DBState) :
    DBState × String :=
  (updateClaimStatus cid new_status s, "Claim status updated.")

/-! ## Overview page: the Claims Completed metric -/

/-- Python `round(x, 2)` on an exact value: round half to even at the
second decimal place. -/
def pyRound2 (q : ℚ) : ℚ :=
  let x := q * 100
  let n : ℤ := ⌊x⌋
  let r : ℚ := x - (n : ℚ)
  (if r < 1/2 then (n : ℚ)
   else if r > 1/2 then (n : ℚ) + 1
   else if n % 2 = 0 then (n : ℚ) else (n : ℚ) + 1) / 100

/-- `SELECT COUNT(*) FROM claims WHERE status = 'Completed'` as a
one-row, one-column frame. -/
def completedCountQuery (s : DBState) : List (List ℚ) :=
  [[((s.claims.filter (fun c => c.status == "Completed")).length : ℚ)]]

/-- `SELECT COUNT(*) FROM claims` as a one-row, one-column frame. -/
def claimsCountQuery (s : DBState) : List (List ℚ) :=
  [[(s.claims.length : ℚ)]]

/-- The numeric percentage shown by the Overview `Claims Completed`
metric: `round(completed / total_claims * 100, 2)` when `total_claims`
is truthy (nonzero), else the literal `0`. -/
def pct_completed (s : DBState) : ℚ :=
  let completed := safe_scalar (some (completedCountQuery s))
  let total_claims := safe_scalar (some (claimsCountQuery s))
  if total_claims ≠ 0 then pyRound2 (completed / total_claims * 100) else 0

/-! ## Form handlers and exception guarding -/

/-- The Listings page claim form after `Claim Now` is pressed: the
INSERT (whose outcome is `ins`) sits inside try/except, so a database
exception becomes an inline `st.error` message and never escapes. -/
def claim_form_submit (ins : Except String DBState) (s : DBState) :
    Except String (DBState × String) :=
  match ins with
  | Except.ok s2 =>
    Except.ok (s2, "Claim submitted (Pending). Admin/provider should update status after pickup.")
  | Except.error e => Except.ok (s, "Failed to submit claim: " ++ e)

/-- The Claims page update form after `Update` is pressed: the UPDATE
(outcome `upd`) sits inside try/except. -/
def update_claim_submit (upd : Except String DBState) (s : DBState) :
    Except String (DBState × String) :=
  match upd with
  | Except.ok s2 => Except.ok (s2, "Claim status updated.")
  | Except.error e => Except.ok (s, "Failed to update claim: " ++ e)

/-- The Providers page add form after `Add Provider` is pressed: an
empty name short-circuits with a warning; otherwise the INSERT (outcome
`ins`) runs with no try/except around it, so a database exception
propagates out of the handler. -/
def add_provider_submit (pname : String) (ins : Except String DBState)
    (s : DBState) : Except String (DBState × String) :=
  if pname = "" then Except.ok (s, "Name is required.")
  else
    match ins with
    | Except.ok s2 => Except.ok (s2, "Provider added. Refresh to see the list.")
    | Except.error e => Except.error e

/-- The Receivers page add form after `Add Receiver` is pressed:
like the provider form, the INSERT is not guarded by try/except. -/
def add_receiver_submit (rname : String) (ins : Except String DBState)
    (s : DBState) : Except String (DBState × String) :=
  if rname = "" then Except.ok (s, "Name is required.")
  else
    match ins with
    | Except.ok s2 => Except.ok (s2, "Receiver added. Refresh to see the list.")
    | Except.error e => Except.error e

/-- A database already holding one provider row (used to exercise the
seeder's no-op branch on concrete data). -/
def dbWithProvider : DBState :=
  ⟨[⟨1, "FreshBites Restaurant", "Restaurant", "123 Market Street", "Mumbai",
     "+91-9876543210"⟩], [], [], []⟩

/-! # Theorems -/

theorem insert_sample_data_of_ne_nil (t : Int) (n1 n2 : String) (s : DBState)
    (h : s.providers ≠ []) :
    insert_sample_data t n1 n2 s = (s, "Sample data already present.") := by
  have hlen : 0 < s.providers.length := List.length_pos.mpr h
  have hc : (safe_scalar (some (providersCountQuery s)) : ℚ) > 0 := by
    simpa [safe_scalar, providersCountQuery] using hlen
  unfold insert_sample_data
  rw [if_pos hc]

theorem insert_sample_data_providers_ne_nil (t : Int) (n1 n2 : String)
    (s : DBState) : ((insert_sample_data t n1 n2 s).1).providers ≠ [] := by
  by_cases h : s.providers = []
  · have hc : ¬ ((safe_scalar (some (providersCountQuery s)) : ℚ) > 0) := by
      simp [safe_scalar, providersCountQuery, h]
    unfold insert_sample_data
    rw [if_neg hc]
    simp
  · rw [insert_sample_data_of_ne_nil t n1 n2 s h]
    exact h

/-- C1: seeding is idempotent.  After one invocation of
`insert_sample_data` (whatever the starting state), a second invocation
returns the state unchanged with the message
`"Sample data already present."`; moreover the seeder no-ops with that
message whenever the providers row count is nonzero. -/
theorem seeding_idempotent (t1 t2 : Int) (n1 n2 n3 n4 : String) (s : DBState) :
    insert_sample_data t2 n3 n4 (insert_sample_data t1 n1 n2 s).1
      = ((insert_sample_data t1 n1 n2 s).1, "Sample data already present.")
    ∧ (s.providers ≠ [] →
        insert_sample_data t1 n1 n2 s = (s, "Sample data already present.")) :=
  ⟨insert_sample_data_of_ne_nil t2 n3 n4 _
      (insert_sample_data_providers_ne_nil t1 n1 n2 s),
   insert_sample_data_of_ne_nil t1 n1 n2 s⟩

/-- Witness for C1 at a concrete state with a nonempty providers table. -/
theorem seeding_idempotent_witness :
    insert_sample_data 20100 "n3" "n4" (insert_sample_data 20099 "n1" "n2" dbWithProvider).1
      = ((insert_sample_data 20099 "n1" "n2" dbWithProvider).1,
         "Sample data already present.")
    ∧ insert_sample_data 20099 "n1" "n2" dbWithProvider
        = (dbWithProvider, "Sample data already present.") :=
  ⟨(seeding_idempotent 20099 20100 "n1" "n2" "n3" "n4" dbWithProvider).1,
   (seeding_idempotent 20099 20100 "n1" "n2" "n3" "n4" dbWithProvider).2 (by decide)⟩

/-- C4: the schema-level `CHECK (quantity > 0)` rejects any insert into
`food_listings` whose quantity is ≤ 0: the statement raises and the
table is unchanged. -/
theorem quantity_check_rejects (s : DBState) (f : FoodListing)
    (h : f.quantity ≤ 0) :
    insertFoodListing s f = Except.error "CHECK constraint failed: quantity > 0"
    ∧ foodListingsAfterInsert s f = s.food_listings := by
  have hne : ¬ f.quantity > 0 := not_lt.mpr h
  have h1 : insertFoodListing s f
      = Except.error "CHECK constraint failed: quantity > 0" := by
    unfold insertFoodListing
    rw [if_neg hne]
  refine ⟨h1, ?_⟩
  unfold foodListingsAfterInsert
  rw [h1]

/-- Witness for C4: a zero-quantity listing is rejected on the empty
database. -/
theorem quantity_check_rejects_witness :
    ((⟨1, "Rice", 0, 20100, none, none, none, none, none⟩ : FoodListing).quantity ≤ 0)
    ∧ (insertFoodListing emptyDB ⟨1, "Rice", 0, 20100, none, none, none, none, none⟩
        = Except.error "CHECK constraint failed: quantity > 0"
      ∧ foodListingsAfterInsert emptyDB ⟨1, "Rice", 0, 20100, none, none, none, none, none⟩
        = emptyDB.food_listings) :=
  ⟨by decide,
   quantity_check_rejects emptyDB ⟨1, "Rice", 0, 20100, none, none, none, none, none⟩
     (by decide)⟩

/-- C8: with `db_host` absent from secrets and the `DB_HOST`/`DB_NAME`
environment variables unset, `DB.__init__` selects the sqlite backend
(whether or not `st.secrets` raises), and `get_conn` then opens the
file `local_food.db` joined to the current working directory. -/
theorem backend_default_sqlite (secretsOk : Bool) (cwd : String) :
    db_init secretsOk false none none = "sqlite"
    ∧ get_conn_path (db_init secretsOk false none none) cwd
        = some (os_path_join cwd "local_food.db") := by
  have h1 : db_init secretsOk false none none = "sqlite" := by
    cases secretsOk <;> rfl
  refine ⟨h1, ?_⟩
  rw [h1]
  rfl

/-- C9: `safe_scalar` is total at the rendering boundary: it yields 0
on a missing or row-less frame and the first row's first column
otherwise; consequently the Overview percentage metric is defined (and
0) on the empty database. -/
theorem safe_scalar_total :
    safe_scalar none = 0
    ∧ safe_scalar (some []) = 0
    ∧ (∀ (v : ℚ) (row : List ℚ) (rest : List (List ℚ)),
        safe_scalar (some ((v :: row) :: rest)) = v)
    ∧ pct_completed emptyDB = 0 := by
  refine ⟨rfl, rfl, fun v row rest => rfl, ?_⟩
  simp [pct_completed, safe_scalar, claimsCountQuery, completedCountQuery, emptyDB]

theorem map_update_id (cid : Nat) (new_status : String) :
    ∀ l : List Claim, (∀ c ∈ l, c.claim_id ≠ cid) →
      l.map (fun c => if c.claim_id = cid then { c with status := new_status } else c)
        = l := by
  intro l h
  induction l with
  | nil => rfl
  | cons a t ih =>
    simp only [List.map_cons]
    rw [if_neg (h a (List.mem_cons_self a t)),
      ih (fun c hc => h c (List.mem_cons_of_mem a hc))]

/-- C10: updating the status of a claim id that no row carries is a
silent no-op: the UPDATE matches zero rows, the whole state is
unchanged, and the page still reports `"Claim status updated."`. -/
theorem update_nonexistent_claim_noop (s : DBState) (cid : Nat)
    (new_status : String) (h : ∀ c ∈ s.claims, c.claim_id ≠ cid) :
    claims_update_form cid new_status s = (s, "Claim status updated.") := by
  unfold claims_update_form updateClaimStatus
  rw [map_update_id cid new_status s.claims h]

/-- Witness for C10: updating claim id 2 in a table holding only claim
id 1 changes nothing and reports success. -/
theorem update_nonexistent_claim_noop_witness :
    (∀ c ∈ (⟨[], [], [], [⟨1, 1, 1, "Pending", "t1"⟩]⟩ : DBState).claims,
        c.claim_id ≠ 2)
    ∧ claims_update_form 2 "Completed" ⟨[], [], [], [⟨1, 1, 1, "Pending", "t1"⟩]⟩
        = (⟨[], [], [], [⟨1, 1, 1, "Pending", "t1"⟩]⟩, "Claim status updated.") :=
  ⟨by decide,
   update_nonexistent_claim_noop ⟨[], [], [], [⟨1, 1, 1, "Pending", "t1"⟩]⟩ 2
     "Completed" (by decide)⟩

/-- C6 counterexample: the Providers page write path does NOT catch
database exceptions — with a nonempty name, a failing INSERT propagates
out of the `add_provider` form handler instead of becoming an inline
message. -/
theorem write_guard_counterexample :
    add_provider_submit "FreshBites Restaurant" (Except.error "connection failed")
      emptyDB = Except.error "connection failed" := by
  unfold add_provider_submit
  rw [if_neg (by decide : ¬ ("FreshBites Restaurant" : String) = "")]

/-- C6 amended: of the four write paths, the claim insert and the claim
status update wrap the write in try/except so a database exception is
surfaced inline and never escapes, while the provider insert and
receiver insert are unguarded — when the name is nonempty a database
exception escapes the form handler. -/
theorem write_guard_amended (e : String) (s : DBState) (name : String)
    (hname : name ≠ "") :
    claim_form_submit (Except.error e) s
      = Except.ok (s, "Failed to submit claim: " ++ e)
    ∧ update_claim_submit (Except.error e) s
      = Except.ok (s, "Failed to update claim: " ++ e)
    ∧ add_provider_submit name (Except.error e) s = Except.error e
    ∧ add_receiver_submit name (Except.error e) s = Except.error e := by
  refine ⟨rfl, rfl, ?_, ?_⟩
  · unfold add_provider_submit
    rw [if_neg hname]
  · unfold add_receiver_submit
    rw [if_neg hname]

/-- Witness for the amended C6 at concrete inputs. -/
theorem write_guard_amended_witness :
    ("Helping Hands NGO" : String) ≠ ""
    ∧ (claim_form_submit (Except.error "db down") emptyDB
        = Except.ok (emptyDB, "Failed to submit claim: " ++ "db down")
      ∧ update_claim_submit (Except.error "db down") emptyDB
        = Except.ok (emptyDB, "Failed to update claim: " ++ "db down")
      ∧ add_provider_submit "Helping Hands NGO" (Except.error "db down") emptyDB
        = Except.error "db down"
      ∧ add_receiver_submit "Helping Hands NGO" (Except.error "db down") emptyDB
        = Except.error "db down") :=
  ⟨by decide, write_guard_amended "db down" emptyDB "Helping Hands NGO" (by decide)⟩

theorem insertByExpiry_perm (x : FoodListing) (l : List FoodListing) :
    List.Perm (insertByExpiry x l) (x :: l) := by
  induction l with
  | nil => exact List.Perm.refl _
  | cons y ys ih =>
    rw [insertByExpiry]
    by_cases hle : x.expiry_date ≤ y.expiry_date
    · rw [if_pos hle]
    · rw [if_neg hle]
      exact (ih.cons y).trans (List.Perm.swap x y ys)

theorem sortByExpiry_perm (l : List FoodListing) :
    List.Perm (sortByExpiry l) l := by
  induction l with
  | nil => exact List.Perm.refl _
  | cons x xs ih =>
    rw [sortByExpiry]
    exact (insertByExpiry_perm x (sortByExpiry xs)).trans (ih.cons x)

theorem insertByExpiry_pairwise (x : FoodListing) (l : List FoodListing)
    (h : l.Pairwise (fun a b => a.expiry_date ≤ b.expiry_date)) :
    (insertByExpiry x l).Pairwise (fun a b => a.expiry_date ≤ b.expiry_date) := by
  induction l with
  | nil => simp [insertByExpiry]
  | cons y ys ih =>
    rw [List.pairwise_cons] at h
    obtain ⟨hy, hys⟩ := h
    rw [insertByExpiry]
    by_cases hle : x.expiry_date ≤ y.expiry_date
    · rw [if_pos hle]
      rw [List.pairwise_cons]
      refine ⟨?_, List.pairwise_cons.mpr ⟨hy, hys⟩⟩
      intro z hz
      rcases List.mem_cons.mp hz with h1 | h2
      · rw [h1]; exact hle
      · exact le_trans hle (hy z h2)
    · rw [if_neg hle]
      rw [List.pairwise_cons]
      refine ⟨?_, ih hys⟩
      intro z hz
      have hz2 := (insertByExpiry_perm x ys).mem_iff.mp hz
      rcases List.mem_cons.mp hz2 with h1 | h2
      · rw [h1]; exact le_of_not_le hle
      · exact hy z h2

theorem sortByExpiry_pairwise (l : List FoodListing) :
    (sortByExpiry l).Pairwise (fun a b => a.expiry_date ≤ b.expiry_date) := by
  induction l with
  | nil => simp [sortByExpiry]
  | cons x xs ih =>
    rw [sortByExpiry]
    exact insertByExpiry_pairwise x (sortByExpiry xs) ih

theorem listingsWhere_no_ft (loc : String) (today : Int) (hloc : loc ≠ "All")
    (r : FoodListing) :
    listingsWhere loc "All" today r
      = (r.location == some loc && decide (today ≤ r.expiry_date)) := by
  unfold listingsWhere
  rw [if_neg hloc, if_pos rfl, Bool.and_true, Bool.and_comm]

/-- C2: with a location filter selected (and the food-type filter at its
default `"All"`), the Listings page query returns exactly the
`food_listings` rows whose `location` equals the selected city and
whose `expiry_date` is on or after the current date, ordered by
ascending expiry date. -/
theorem listings_filter_correct (loc : String) (today : Int) (s : DBState)
    (hloc : loc ≠ "All") :
    List.Perm (listingsPageQuery loc "All" today s)
      (s.food_listings.filter
        (fun r => r.location == some loc && decide (today ≤ r.expiry_date)))
    ∧ (listingsPageQuery loc "All" today s).Pairwise
        (fun a b => a.expiry_date ≤ b.expiry_date) := by
  constructor
  · unfold listingsPageQuery
    rw [List.filter_congr (fun r _ => listingsWhere_no_ft loc today hloc r)]
    exact sortByExpiry_perm _
  · unfold listingsPageQuery
    exact sortByExpiry_pairwise _

/-- A database with three listings (two in Mumbai with different expiry
dates, one in Delhi) used to exercise the Listings filter concretely. -/
def dbThreeListings : DBState :=
  ⟨[], [],
   [⟨1, "Vegetable Curry", 20, 20103, some 1, some "Restaurant", some "Mumbai",
      some "Vegetarian", some "Lunch"⟩,
    ⟨2, "Chicken Biryani", 15, 20101, some 2, some "Caterer", some "Delhi",
      some "Non-Vegetarian", some "Dinner"⟩,
    ⟨3, "Dal Rice", 10, 20102, some 1, some "Restaurant", some "Mumbai",
      some "Vegetarian", some "Dinner"⟩],
   []⟩

/-- Witness for C2 at a concrete database and the city `"Mumbai"`. -/
theorem listings_filter_correct_witness :
    ("Mumbai" : String) ≠ "All"
    ∧ (List.Perm (listingsPageQuery "Mumbai" "All" 20100 dbThreeListings)
        (dbThreeListings.food_listings.filter
          (fun r => r.location == some "Mumbai" && decide ((20100 : Int) ≤ r.expiry_date)))
      ∧ (listingsPageQuery "Mumbai" "All" 20100 dbThreeListings).Pairwise
          (fun a b => a.expiry_date ≤ b.expiry_date)) :=
  ⟨by decide, listings_filter_correct "Mumbai" 20100 dbThreeListings (by decide)⟩

/-- C5: read-after-write for a claim status update.  If some claim row
carries the given id, then after the Claims-page update to
`"Completed"` every row read back by that claim id has status
`"Completed"`, and the read is nonempty. -/
theorem claim_update_read_back (s : DBState) (cid : Nat)
    (h : ∃ c ∈ s.claims, c.claim_id = cid) :
    readClaimById cid (claims_update_form cid "Completed" s).1 ≠ []
    ∧ ∀ c ∈ readClaimById cid (claims_update_form cid "Completed" s).1,
        c.status = "Completed" := by
  obtain ⟨c, hc, hid⟩ := h
  have hstate : (claims_update_form cid "Completed" s).1
      = updateClaimStatus cid "Completed" s := rfl
  constructor
  · apply List.ne_nil_of_mem (a := { c with status := "Completed" })
    rw [hstate]
    unfold readClaimById updateClaimStatus
    rw [List.mem_filter]
    constructor
    · apply List.mem_map.mpr
      exact ⟨c, hc, by rw [if_pos hid]⟩
    · simp [hid]
  · intro x hx
    rw [hstate] at hx
    unfold readClaimById updateClaimStatus at hx
    rw [List.mem_filter] at hx
    obtain ⟨hmem, hbeq⟩ := hx
    obtain ⟨c0, hc0, he⟩ := List.mem_map.mp hmem
    by_cases h0 : c0.claim_id = cid
    · rw [if_pos h0] at he
      rw [← he]
    · rw [if_neg h0] at he
      cases he
      exact absurd (by simpa using hbeq) h0

/-- A database holding two claims, one Pending and one Completed. -/
def dbTwoClaims : DBState :=
  ⟨[], [], [],
   [⟨1, 1, 1, "Pending", "t1"⟩, ⟨2, 2, 2, "Cancelled", "t2"⟩]⟩

/-- Witness for C5: updating claim id 1 of a two-claim table reads back
as Completed. -/
theorem claim_update_read_back_witness :
    (∃ c ∈ dbTwoClaims.claims, c.claim_id = 1)
    ∧ (readClaimById 1 (claims_update_form 1 "Completed" dbTwoClaims).1 ≠ []
      ∧ ∀ c ∈ readClaimById 1 (claims_update_form 1 "Completed" dbTwoClaims).1,
          c.status = "Completed") :=
  ⟨by decide, claim_update_read_back dbTwoClaims 1 (by decide)⟩

/-- C3: the Overview `Claims Completed` metric equals the number of
Completed claims divided by the total number of claims, times 100,
rounded to two decimal places (Python banker's rounding, exact
rational arithmetic); on an empty claims table it is the literal 0. -/
theorem pct_completed_correct (s : DBState) :
    (s.claims = [] → pct_completed s = 0)
    ∧ (s.claims ≠ [] →
        pct_completed s =
          pyRound2 (((s.claims.filter (fun c => c.status == "Completed")).length : ℚ)
            / (s.claims.length : ℚ) * 100)) := by
  constructor
  · intro h
    simp [pct_completed, safe_scalar, claimsCountQuery, completedCountQuery, h]
  · intro h
    have hlen : ((s.claims.length : ℚ)) ≠ 0 := by
      have : s.claims.length ≠ 0 := fun h0 => h (List.length_eq_zero.mp h0)
      exact_mod_cast this
    have e1 : safe_scalar (some (claimsCountQuery s)) = (s.claims.length : ℚ) := rfl
    have e2 : safe_scalar (some (completedCountQuery s))
        = ((s.claims.filter (fun c => c.status == "Completed")).length : ℚ) := rfl
    unfold pct_completed
    rw [e1, e2, if_pos hlen]

/-- Witness for C3 covering both branches: the empty table reports 0,
and a nonempty two-claim table reports the rounded ratio. -/
theorem pct_completed_correct_witness :
    pct_completed emptyDB = 0
    ∧ pct_completed dbTwoClaims
        = pyRound2 (((dbTwoClaims.claims.filter
            (fun c => c.status == "Completed")).length : ℚ)
          / (dbTwoClaims.claims.length : ℚ) * 100) :=
  ⟨(pct_completed_correct emptyDB).1 rfl,
   (pct_completed_correct dbTwoClaims).2 (by decide)⟩

theorem hasPSAux_cons_notPercent (c : Char) (r : List Char) (hc : c ≠ '%')
    (hr : hasPSAux r = false) : hasPSAux (c :: r) = false := by
  cases r with
  | nil => rfl
  | cons d t =>
    rw [hasPSAux, hr]
    simp [hc]

theorem hasPSAux_cons_percent (r : List Char) (h : ∀ t', r ≠ 's' :: t')
    (hr : hasPSAux r = false) : hasPSAux ('%' :: r) = false := by
  cases r with
  | nil => rfl
  | cons d t =>
    have hd : d ≠ 's' := fun hds => h t (by rw [hds])
    rw [hasPSAux, hr]
    simp [hd]

theorem replacePSAux_head (d : Char) (t : List Char) :
    (∃ r', replacePSAux (d :: t) = d :: r')
    ∨ (∃ r', replacePSAux (d :: t) = '?' :: r') := by
  cases t with
  | nil => exact Or.inl ⟨[], rfl⟩
  | cons e t' =>
    by_cases h : d = '%' ∧ e = 's'
    · right
      rw [replacePSAux, if_pos h]
      exact ⟨_, rfl⟩
    · left
      rw [replacePSAux, if_neg h]
      exact ⟨_, rfl⟩

theorem hasPSAux_replacePSAux : ∀ l : List Char, hasPSAux (replacePSAux l) = false
  | [] => rfl
  | [_] => rfl
  | c :: d :: t => by
    rw [replacePSAux]
    by_cases h : c = '%' ∧ d = 's'
    · rw [if_pos h]
      exact hasPSAux_cons_notPercent '?' _ (by decide) (hasPSAux_replacePSAux t)
    · rw [if_neg h]
      have ih := hasPSAux_replacePSAux (d :: t)
      by_cases hc : c = '%'
      · have hd : d ≠ 's' := fun hds => h ⟨hc, hds⟩
        subst hc
        refine hasPSAux_cons_percent _ ?_ ih
        intro t' ht'
        rcases replacePSAux_head d t with ⟨r', hr⟩ | ⟨r', hr⟩
        · rw [ht'] at hr
          injection hr with h1 _
          exact hd h1.symm
        · rw [ht'] at hr
          injection hr with h1 _
          exact absurd h1 (by decide)
      · exact hasPSAux_cons_notPercent c _ hc ih

/-- C7: `_adapt_sql` normalizes placeholders per backend, and both the
read path (`run_query`) and the write path (`run_execute`) apply it:
for the sqlite backend every occurrence of `%s` is replaced by `?` (no
occurrence survives), and for the postgres backend the SQL text is
returned unchanged. -/
theorem adapt_sql_correct (sql : String) :
    run_query_sql "sqlite" sql = replacePS sql
    ∧ run_execute_sql "sqlite" sql = replacePS sql
    ∧ run_query_sql "postgres" sql = sql
    ∧ run_execute_sql "postgres" sql = sql
    ∧ hasPS (replacePS sql) = false := by
  refine ⟨?_, ?_, ?_, ?_, ?_⟩
  · unfold run_query_sql _adapt_sql
    rw [if_pos rfl]
  · unfold run_execute_sql _adapt_sql
    rw [if_pos rfl]
  · unfold run_query_sql _adapt_sql
    rw [if_neg (by decide : ¬ ("postgres" : String) = "sqlite")]
  · unfold run_execute_sql _adapt_sql
    rw [if_neg (by decide : ¬ ("postgres" : String) = "sqlite")]
  · unfold hasPS replacePS
    exact hasPSAux_replacePSAux sql.data
